import Mathlib

set_option maxRecDepth 20000

/-!
Verification development for the Google Ads analyzer repository.

The definitions below are a shallow embedding of the Python source:

* `src/tools/utils.py` — value cleaners (`clean_percentage`, `clean_currency`,
  `clean_number`), the table loader (its encoding loop and its final cleanup
  phase), `safe_divide`, `find_col`, and the file-type classifier
  (`classify_csv` restricted to an already-loaded table).
* `src/tools/campaign_performance.py` — `campaignAnalyze`.
* `src/tools/budget_pacing.py` — `budgetPacingAnalyze`.
* `src/tools/keyword_analysis.py` — `keywordAnalyze`.
* `src/agent/tool_executor.py` — `execute`.

Modelling conventions:

* Python floats are modelled as rationals; NaN is modelled by the `none` value
  of `PyF := Option ℚ` (pandas uses NaN as the missing sentinel).  All numeric
  values appearing in the verified scenarios are exact decimals, where double
  rounding and rational arithmetic agree on every comparison performed.
* A pandas cell is `Cell`: missing (NaN), a number, or text.
* Presentation-only outputs of the analyzers (the `summary` sentence, the
  `detail` and `recommendation` strings of a finding, the quality-score and
  match-type breakdown dicts) are omitted; findings keep their severity, area
  and the entity cell, which is all the specification claims refer to.
* Dead locals of the source (columns that are cleaned or resolved but never
  read afterwards, e.g. `_cpc`, `_cpa`, `exp_ctr_col` in the keyword tool) are
  omitted.
-/

/-- A pandas cell: NaN / numeric / text. -/
inductive Cell where
  | missing : Cell
  | num : ℚ → Cell
  | text : String → Cell
deriving DecidableEq

/-- A Python float value; `none` models IEEE NaN (pandas missing sentinel). -/
abbrev PyF := Option ℚ


/-! ### Reducible rational arithmetic

The `Rat` operations of the core library (`Rat.add`, `Rat.mul`, `Rat.inv`,
`Rat.sub`, `Rat.ofScientific`) are marked irreducible, which prevents the
definitions below from being evaluated inside proofs.  The embedding
therefore computes with the following equivalent operations built on the
reducible smart constructor `mkRat`; the bridge lemmas `qn_eq`, `qadd_eq`,
`qmul_eq`, `qsub_eq`, `qdiv_eq`, `qpow10_eq` and `qmax_eq` in the theorem
section prove each one equal to the corresponding field operation of ℚ. -/

/-- The rational literal `n / d`. -/
def qn (n : ℤ) (d : ℕ) : ℚ := mkRat n d

/-- Addition on ℚ (equal to `+`, see `qadd_eq`). -/
def qadd (a b : ℚ) : ℚ := mkRat (a.num * b.den + b.num * a.den) (a.den * b.den)

/-- Multiplication on ℚ (equal to `*`, see `qmul_eq`). -/
def qmul (a b : ℚ) : ℚ := mkRat (a.num * b.num) (a.den * b.den)

/-- Division on ℚ, with division by zero giving zero (equal to `/`,
see `qdiv_eq`). -/
def qdiv (a b : ℚ) : ℚ := Rat.divInt (a.num * b.den) (b.num * a.den)

/-- Subtraction on ℚ (equal to `-`, see `qsub_eq`). -/
def qsub (a b : ℚ) : ℚ := mkRat (a.num * b.den - b.num * a.den) (a.den * b.den)

/-- The power `10 ^ n` in ℚ (see `qpow10_eq`). -/
def qpow10 (n : ℕ) : ℚ := ((10 ^ n : ℕ) : ℚ)

/-- Binary maximum on ℚ (equal to `max`, see `qmax_eq`). -/
def qmax (a b : ℚ) : ℚ := if a ≤ b then b else a

/-- Finding severity levels used across the analyzer suite. -/
inductive Severity where
  | CRITICAL | HIGH | MEDIUM | LOW | INFO
deriving DecidableEq

/-- One finding, keeping the fields the claims talk about (severity, area and
the entity the finding is attached to); the free-text detail and
recommendation strings of the source are presentation only and omitted. -/
structure Finding where
  severity : Severity
  area : String
  entity : Cell
deriving DecidableEq

/-- A loaded table: named columns and rows of cells, aligned by position. -/
structure Table where
  cols : List String
  rows : List (List Cell)
deriving DecidableEq

/-- Analyzer result: either the error dict the source returns when the
mandatory identifying column is missing, or the assembled output. -/
inductive AnalyzeResult (α : Type) where
  | error : String → AnalyzeResult α
  | ok : α → AnalyzeResult α
deriving DecidableEq

/-! ### Character-list string helpers (Python `str` operations) -/

/-- Whether `needle` is an initial segment of `hay` (Python `startswith`). -/
def startsList (needle hay : List Char) : Bool :=
  match needle, hay with
  | [], _ => true
  | _ :: _, [] => false
  | a :: as, b :: bs => a == b && startsList as bs

/-- Whether `needle` occurs as a contiguous substring of `hay`
(Python `in` on strings). -/
def hasSub (needle : List Char) : List Char → Bool
  | [] => needle.isEmpty
  | c :: rest => startsList needle (c :: rest) || hasSub needle rest

/-- Fuelled worker for `replaceList`; the fuel is the haystack length, which
bounds the number of steps since every step consumes at least one character. -/
def replaceAux (needle repl : List Char) : Nat → List Char → List Char
  | 0, hay => hay
  | Nat.succ _, [] => []
  | Nat.succ fuel, c :: rest =>
      if !needle.isEmpty && startsList needle (c :: rest) then
        repl ++ replaceAux needle repl fuel (List.drop (needle.length - 1) rest)
      else
        c :: replaceAux needle repl fuel rest

/-- Python `str.replace`: replace every non-overlapping occurrence of
`needle` by `repl`, scanning left to right. -/
def replaceList (needle repl hay : List Char) : List Char :=
  replaceAux needle repl hay.length hay

/-- Whitespace predicate used by Python `str.strip` (ASCII subset, which
covers every string in this development). -/
def isWsChar (c : Char) : Bool :=
  c == ' ' || c == '\t' || c == '\n' || c == '\r'

/-- Python `str.strip`: drop leading and trailing whitespace. -/
def stripList (l : List Char) : List Char :=
  ((l.dropWhile isWsChar).reverse.dropWhile isWsChar).reverse

/-- Python `str.lower` (ASCII). -/
def toLowerList (l : List Char) : List Char := l.map Char.toLower

def stripS (s : String) : String := String.mk (stripList s.data)

def toLowerS (s : String) : String := String.mk (toLowerList s.data)

def hasSubS (needle hay : String) : Bool := hasSub needle.data hay.data

/-- Python `str.startswith` on `String`s. -/
def swS (needle hay : String) : Bool := startsList needle.data hay.data

/-! ### Python `float(str)` (decimal subset)

The parser accepts an optional sign, digits with at most one decimal point
(at least one digit overall) and an optional exponent — exactly the shapes
that reach `float` in the cleaners.  The `inf`/`nan` spellings and digit
underscores accepted by Python cannot arise from Google Ads exports and are
not modelled. -/

def isDigitCh (c : Char) : Bool :=
  decide (48 ≤ c.toNat) && decide (c.toNat ≤ 57)

def digitVal (c : Char) : Nat := c.toNat - 48

def digitsVal (l : List Char) : Nat :=
  l.foldl (fun a c => a * 10 + digitVal c) 0

def allDigits (l : List Char) : Bool := l.all isDigitCh

/-- Split at the first occurrence of `c`; the second component is `none`
when `c` does not occur. -/
def splitAtChar (c : Char) : List Char → List Char × Option (List Char)
  | [] => ([], none)
  | x :: xs =>
      if x == c then ([], some xs)
      else
        let r := splitAtChar c xs
        (x :: r.1, r.2)

/-- Unsigned mantissa: digits with at most one dot, at least one digit. -/
def parseMantissa (l : List Char) : Option ℚ :=
  let p := splitAtChar '.' l
  match p.2 with
  | none =>
      if !p.1.isEmpty && allDigits p.1 then some ((digitsVal p.1 : ℚ)) else none
  | some fp =>
      if allDigits p.1 && allDigits fp && (!p.1.isEmpty || !fp.isEmpty) then
        some (qadd ((digitsVal p.1 : ℚ)) (qdiv ((digitsVal fp : ℚ)) (qpow10 fp.length)))
      else none

/-- Signed exponent digits after `e`. -/
def parseExp (l : List Char) : Option ℤ :=
  match l with
  | '+' :: ds => if !ds.isEmpty && allDigits ds then some ((digitsVal ds : ℤ)) else none
  | '-' :: ds => if !ds.isEmpty && allDigits ds then some (-(digitsVal ds : ℤ)) else none
  | ds => if !ds.isEmpty && allDigits ds then some ((digitsVal ds : ℤ)) else none

def pow10 (z : ℤ) : ℚ :=
  if 0 ≤ z then qpow10 z.toNat else qdiv 1 (qpow10 (-z).toNat)

/-- Mantissa with optional `e`/`E` exponent. -/
def parseUnsignedFloat (l : List Char) : Option ℚ :=
  let p := splitAtChar 'e' (toLowerList l)
  match p.2 with
  | none => parseMantissa p.1
  | some ex =>
      match parseMantissa p.1, parseExp ex with
      | some m, some z => some (qmul m (pow10 z))
      | _, _ => none

/-- Python `float(s)` on the decimal subset, `none` on `ValueError`. -/
def pyFloatL (l : List Char) : Option ℚ :=
  match stripList l with
  | [] => none
  | '+' :: r => parseUnsignedFloat r
  | '-' :: r => (parseUnsignedFloat r).map Neg.neg
  | r => parseUnsignedFloat r

/-! ### Value cleaners (src/tools/utils.py lines 8-44) -/

/-- Cleaner `clean_percentage`: NaN passes through as missing; an already numeric
value is divided by 100 only when strictly greater than 1; text has the
percent sign, a leading less-than marker (with its space), greater-than
markers and placeholder dashes removed, then is parsed and divided by 100. -/
def clean_percentage (val : Cell) : Option ℚ :=
  match val with
  | Cell.missing => none
  | Cell.num q => some (if 1 < q then qdiv q 100 else q)
  | Cell.text s =>
      let r := stripList (replaceList "--".data [] (replaceList ">".data []
        (replaceList "< ".data [] (replaceList "%".data [] s.data))))
      (pyFloatL r).map (fun x => qdiv x 100)

/-- Cleaner `clean_currency`: strips the dollar sign, thousands separators and
placeholder dashes, then parses. -/
def clean_currency (val : Cell) : Option ℚ :=
  match val with
  | Cell.missing => none
  | Cell.num q => some q
  | Cell.text s =>
      pyFloatL (stripList (replaceList "--".data []
        (replaceList ",".data [] (replaceList "$".data [] s.data))))

/-- Cleaner `clean_number`: strips thousands separators and placeholder dashes,
then parses. -/
def clean_number (val : Cell) : Option ℚ :=
  match val with
  | Cell.missing => none
  | Cell.num q => some q
  | Cell.text s =>
      pyFloatL (stripList (replaceList "--".data [] (replaceList ",".data [] s.data)))

/-! ### Python truthiness / comparison semantics over floats-with-NaN -/

/-- Python `row.get(col, 0) or 0`: an absent column gives the default `0`; a NaN
value is truthy in Python so `nan or 0` stays NaN; any number is returned
unchanged (a zero float is falsy, but `0 or 0` is again `0`). -/
def getOr0 : Option PyF → PyF
  | none => some 0
  | some none => none
  | some (some q) => some q

/-- Python truthiness of a float: NaN is truthy, `0.0` is falsy. -/
def pyTruthy : PyF → Bool
  | none => true
  | some q => decide (q ≠ 0)

/-- Comparison `v > c`: any comparison with NaN is false. -/
def pyGtC (v : PyF) (c : ℚ) : Bool :=
  match v with
  | some q => decide (c < q)
  | none => false

/-- Comparison `v < c`: any comparison with NaN is false. -/
def pyLtC (v : PyF) (c : ℚ) : Bool :=
  match v with
  | some q => decide (q < c)
  | none => false

/-- Comparison `v <= c`: any comparison with NaN is false. -/
def pyLeC (v : PyF) (c : ℚ) : Bool :=
  match v with
  | some q => decide (q ≤ c)
  | none => false

/-- Comparison `v == c`: NaN compares unequal to everything. -/
def pyEqC (v : PyF) (c : ℚ) : Bool :=
  match v with
  | some q => decide (q = c)
  | none => false

/-- Float comparison `a > b` with NaN on either side false. -/
def pyGt (a b : PyF) : Bool :=
  match a, b with
  | some x, some y => decide (y < x)
  | _, _ => false

/-- Float multiplication; NaN is absorbing. -/
def pyMul (a b : PyF) : PyF :=
  match a, b with
  | some x, some y => some (qmul x y)
  | _, _ => none

/-- Division by a nonzero constant; NaN propagates. -/
def pyDivC (v : PyF) (c : ℚ) : PyF := v.map (fun q => qdiv q c)

/-- pandas `Series.sum`: NaN entries are skipped; an empty or all-NaN
series sums to 0. -/
def nansum (l : List PyF) : ℚ :=
  (l.filterMap id).foldl qadd 0

/-- pandas `Series.mean`: NaN entries are skipped; the mean of an empty or
all-NaN series is NaN. -/
def nanmean (l : List PyF) : PyF :=
  let v := l.filterMap id
  if v.isEmpty then none else some (qdiv (v.foldl qadd 0) ((v.length : ℚ)))

/-- Floor of a rational (the denominator is positive, so floored integer
division of the numerator gives the floor). -/
def qfloor (q : ℚ) : ℤ := Int.fdiv q.num (q.den : ℤ)

/-- Python `round(q, n)` (round half to even).  Python rounds the binary
double; on the exact decimal values of this development both agree. -/
def pyRound (q : ℚ) (n : ℕ) : ℚ :=
  let m := qmul q (qpow10 n)
  let fl := qfloor m
  let fr := qsub m ((fl : ℚ))
  let r : ℤ :=
    if fr < qn 1 2 then fl
    else if qn 1 2 < fr then fl + 1
    else if fl % 2 = 0 then fl else fl + 1
  qdiv ((r : ℚ)) (qpow10 n)

def pyRoundF (v : PyF) (n : ℕ) : PyF := v.map (fun q => pyRound q n)

/-- Function `safe_divide` (src/tools/utils.py lines 140-144): returns the default
when the denominator is zero or missing (NaN), otherwise divides.  The
source gives `default` the value 0.0 when the caller omits it; callers here
always pass it explicitly. -/
def safe_divide (n d : PyF) (default : ℚ) : PyF :=
  match d with
  | none => some default
  | some dv => if dv = 0 then some default else n.map (fun q => qdiv q dv)

/-- Python `str(cell)` as used on raw cells: NaN prints as `nan`, text is
itself.  Python renders floats with the shortest round-trip decimal; no
theorem in this development evaluates the numeric rendering, which is kept
schematic. -/
def pyStrCell : Cell → String
  | Cell.missing => "nan"
  | Cell.num q =>
      if q.den == 1 then String.mk (toString q.num).data ++ ".0"
      else String.mk (toString q.num).data ++ "/" ++ String.mk (toString q.den).data
  | Cell.text s => s

/-! ### Column resolution and table access (src/tools/utils.py) -/

/-- Function `find_col` (utils.py lines 183-189): build the map from lowercased
column name to column (later duplicates overwrite earlier ones, hence
`getLast?`), then return the first candidate, in the order given, whose
lowercase form is present. -/
def find_col (t : Table) (cands : List String) : Option String :=
  cands.findSome? (fun cand =>
    (t.cols.filter (fun c => toLowerS c == toLowerS cand)).getLast?)

/-- Index of a column label. -/
def colIdx (t : Table) (name : String) : Option Nat :=
  t.cols.findIdx? (fun c => c == name)

/-- The cell of row `r` in column `name` (missing when out of range). -/
def cellAt (t : Table) (name : String) (r : List Cell) : Cell :=
  match colIdx t name with
  | some j => r.getD j Cell.missing
  | none => Cell.missing

/-- The cell of a row in an optionally-present column; `none` when the
column was not resolved. -/
def chanCell (t : Table) (col? : Option String) (r : List Cell) : Option Cell :=
  col?.map (fun c => cellAt t c r)

/-- A cleaned numeric value of a row in an optionally-present column: the
outer `Option` is column presence, the inner `PyF` is the cleaned value
(`df[col].apply(cleaner)` read back row-wise). -/
def chanNum (t : Table) (col? : Option String) (f : Cell → Option ℚ)
    (r : List Cell) : Option PyF :=
  (chanCell t col? r).map f

/-- Concatenation of the per-element lists, in order (`flatMap`). -/
def listBind (l : List α) (f : α → List β) : List β := (l.map f).flatten

/-! ### Table loader, encoding phase (src/tools/utils.py lines 61-74)

`load_csv` first reads the raw lines, trying `utf-8-sig`, `utf-8` and
`latin-1` in order inside `try/except Exception`.  Opening a nonexistent
path raises `FileNotFoundError` and decoding failure raises
`UnicodeDecodeError`; both are caught by the same handler, so the loop
simply moves on, and when no attempt succeeded the function raises
`ValueError("Could not read file: <path>")`.  A file on disk is modelled
as `none` (the path does not exist) or `some d`, where `d e` gives the
decoded lines under encoding `e` (or `none` when that encoding fails). -/

inductive Encoding where
  | utf8sig | utf8 | latin1
deriving DecidableEq

def encodings : List Encoding := [Encoding.utf8sig, Encoding.utf8, Encoding.latin1]

/-- A path on disk: absent, or present with per-encoding decode results. -/
abbrev DiskFile := Option (Encoding → Option (List String))

/-- The errors the read phase can produce. -/
inductive LoadError where
  | fileNotFoundError : String → LoadError
  | valueError : String → LoadError
deriving DecidableEq

/-- One iteration body: `open(path, encoding=e)` followed by `read`;
`none` models the caught exception (missing file or decode failure). -/
def tryReadLines (file : DiskFile) (e : Encoding) : Option (List String) :=
  match file with
  | none => none
  | some d => d e

/-- The encoding loop of `load_csv`: first encoding that reads the file
wins; if none succeeds the `ValueError` is raised. -/
def readFileLines (path : String) (file : DiskFile) :
    Except LoadError (List String × Encoding) :=
  match encodings.findSome? (fun e => (tryReadLines file e).map (fun ls => (ls, e))) with
  | some r => Except.ok r
  | none => Except.error (LoadError.valueError ("Could not read file: " ++ path))

/-- Whether a read result is the `FileNotFoundError` case. -/
def isFileNotFound (r : Except LoadError (List String × Encoding)) : Bool :=
  match r with
  | Except.error (LoadError.fileNotFoundError _) => true
  | _ => false

/-! ### Table loader, cleanup phase (src/tools/utils.py lines 131-137)

After parsing, `load_csv` strips the column names, drops rows that are
entirely NaN (`dropna` with `how=all`), and drops rows whose first cell,
rendered as a string and lowercased, starts with `total`. -/

/-- A row every cell of which is missing (dropped by `dropna` with `how=all`). -/
def allMissingRow (r : List Cell) : Bool :=
  r.all (fun c => c == Cell.missing)

/-- A footer row: the first cell, as a lowercased string, starts with
`total`. -/
def totalRow (r : List Cell) : Bool :=
  swS "total" (toLowerS (pyStrCell (r.headD Cell.missing)))

/-- The cleanup phase of `load_csv` applied to the parsed table. -/
def cleanupTable (cols : List String) (rows : List (List Cell)) : Table :=
  let cols2 := cols.map (fun c => stripS c)
  let rows1 := rows.filter (fun r => !allMissingRow r)
  let rows2 := rows1.filter (fun r => !totalRow r)
  { cols := cols2, rows := rows2 }

/-! ### File-type classifier (src/tools/utils.py lines 224-343) -/

/-- The 11 report types the classifier can return. -/
inductive ReportType where
  | campaigns | keywords | search_terms | ads | ad_groups | devices
  | audiences | extensions | geographic | time_of_day | day_of_week
deriving DecidableEq

/-- Table `_FIRST_COL_MAP`: primary-dimension fragments in source order, most
specific first. -/
def FIRST_COL_MAP : List (String × ReportType) :=
  [("search term",       ReportType.search_terms),
   ("hour of day",       ReportType.time_of_day),
   ("day of week",       ReportType.day_of_week),
   ("country/territory", ReportType.geographic),
   ("asset type",        ReportType.extensions),
   ("audience segment",  ReportType.audiences),
   ("audience",          ReportType.audiences),
   ("device",            ReportType.devices),
   ("ad group",          ReportType.ad_groups),
   ("keyword",           ReportType.keywords),
   ("campaign",          ReportType.campaigns),
   ("city",              ReportType.geographic),
   ("region",            ReportType.geographic),
   ("location",          ReportType.geographic),
   ("ad",                ReportType.ads)]

/-- Table `_SIGNATURES`: weighted column fragments per type, in the dict
insertion order of the source. -/
def SIGNATURES : List (ReportType × List (String × Nat)) :=
  [(ReportType.campaigns,
     [("budget", 6), ("search impr. share", 8), ("impr. share", 5), ("cost / conv.", 3)]),
   (ReportType.keywords,
     [("quality score", 10), ("ad relevance", 8), ("landing page exp.", 8),
      ("exp. ctr", 6), ("match type", 3)]),
   (ReportType.search_terms,
     [("search term", 12), ("added/excluded", 8)]),
   (ReportType.ads,
     [("headline 1", 10), ("ad strength", 10), ("description 1", 8), ("final url", 4)]),
   (ReportType.ad_groups,
     [("default max. cpc", 10), ("ad group", 5)]),
   (ReportType.devices,
     [("device", 10)]),
   (ReportType.audiences,
     [("audience", 8), ("bid adj.", 5)]),
   (ReportType.extensions,
     [("asset type", 10), ("association level", 10), ("extension", 5)]),
   (ReportType.geographic,
     [("country/territory", 12), ("city", 8), ("region", 6)]),
   (ReportType.time_of_day,
     [("hour of day", 14)]),
   (ReportType.day_of_week,
     [("day of week", 14), ("day", 5)])]

/-- The lowercased, stripped column headers of a table. -/
def colsLowerOf (t : Table) : List String :=
  t.cols.map (fun c => stripS (toLowerS c))

/-- Stage 1: the first entry of `FIRST_COL_MAP` whose fragment equals the
first column header or is a prefix of it followed by a space. -/
def stage1Result (t : Table) : Option (String × ReportType) :=
  FIRST_COL_MAP.find? (fun p =>
    (colsLowerOf t).headD "" == p.1 || swS (p.1 ++ " ") ((colsLowerOf t).headD ""))

/-- The signature score of one type: the sum of the weights of its
fragments that occur as a substring of some column header. -/
def sigScore (colsLower : List String) (sig : List (String × Nat)) : Nat :=
  sig.foldl (fun a fw => if colsLower.any (fun c => hasSubS fw.1 c) then a + fw.2 else a) 0

/-- Stage 2 scores for every type, in signature order. -/
def scoresOf (t : Table) : List (ReportType × Nat) :=
  SIGNATURES.map (fun p => (p.1, sigScore (colsLowerOf t) p.2))

/-- Python `max(scores, key=scores.get)`: the first key attaining the
maximal value (a later key replaces the current best only when strictly
greater). -/
def maxByFirst (l : List (ReportType × Nat)) : Option (ReportType × Nat) :=
  match l with
  | [] => none
  | x :: xs => some (xs.foldl (fun best y => if best.2 < y.2 then y else best) x)

/-- Function `classify_csv` on an already-loaded table (utils.py lines 299-343):
empty or too-narrow tables are unknown; stage 1 matches the primary
dimension column; stage 2 falls back to weighted signature scoring with
acceptance threshold 5. -/
def classifyTable (t : Table) : Option ReportType :=
  if t.rows.isEmpty || decide (t.cols.length < 2) then none
  else
    match stage1Result t with
    | some p => some p.2
    | none =>
        if (scoresOf t).isEmpty then none
        else
          match maxByFirst (scoresOf t) with
          | some best => if 5 ≤ best.2 then some best.1 else none
          | none => none

/-! ### Campaign performance analyzer (src/tools/campaign_performance.py) -/

/-- Budget-capped campaign: `lost_b and lost_b > 0.10` gives a HIGH Budget
finding. -/
def checkBudgetCap (name : Cell) (lostB : PyF) : List Finding :=
  if pyTruthy lostB && pyGtC lostB (qn 1 10) then
    [{ severity := Severity.HIGH, area := "Budget", entity := name }]
  else []

/-- Rank-limited campaign: `lost_r and lost_r > 0.20` gives a HIGH
Impression Share (Rank) finding. -/
def checkRankIS (name : Cell) (lostR : PyF) : List Finding :=
  if pyTruthy lostR && pyGtC lostR (qn 1 5) then
    [{ severity := Severity.HIGH, area := "Impression Share (Rank)", entity := name }]
  else []

/-- High CPA: `avg_cpa > 0 and cpa > avg_cpa * 2 and cost > 50` gives a
HIGH CPA finding. -/
def checkHighCpa (name : Cell) (avgCpa cpa cost : PyF) : List Finding :=
  if pyGtC avgCpa 0 && pyGt cpa (pyMul avgCpa (some 2)) && pyGtC cost 50 then
    [{ severity := Severity.HIGH, area := "CPA", entity := name }]
  else []

/-- Negative ROAS: when a conversion-value column exists and the row
converts, `roas < 1.0 and cost > 100` gives a HIGH ROAS finding. -/
def checkRoas (name : Cell) (hasConvVal : Bool) (conv convVal cost : PyF) : List Finding :=
  if hasConvVal && pyGtC conv 0 then
    let roas := safe_divide convVal cost 0
    if pyLtC roas 1 && pyGtC cost 100 then
      [{ severity := Severity.HIGH, area := "ROAS", entity := name }]
    else []
  else []

/-- Low CTR: `ctr and ctr < 0.005 and impr > 1000` gives a MEDIUM CTR
finding (the truthiness conjunct makes a CTR of exactly zero fall through). -/
def checkLowCtr (name : Cell) (ctr impr : PyF) : List Finding :=
  if pyTruthy ctr && pyLtC ctr (qn 1 200) && pyGtC impr 1000 then
    [{ severity := Severity.MEDIUM, area := "CTR", entity := name }]
  else []

/-- Delivery: `status == enabled and impr == 0` gives a MEDIUM Delivery
finding. -/
def checkDelivery (name : Cell) (status : String) (impr : PyF) : List Finding :=
  if status == "enabled" && pyEqC impr 0 then
    [{ severity := Severity.MEDIUM, area := "Delivery", entity := name }]
  else []

/-- Under-pacing: with a positive budget and positive cost, a utilization
of the daily budget below 20 percent with cost above 10 gives a LOW Budget
Utilization finding (`daily_avg = cost / 30`). -/
def checkUnderPacing (name : Cell) (budget cost : PyF) : List Finding :=
  if pyTruthy budget && pyGtC budget 0 && pyGtC cost 0 then
    let dailyAvg := pyDivC cost 30
    let util := safe_divide dailyAvg budget 0
    if pyLtC util (qn 1 5) && pyGtC cost 10 then
      [{ severity := Severity.LOW, area := "Budget Utilization", entity := name }]
    else []
  else []

/-- The body of the campaign row loop (campaign_performance.py lines
69-155): read each value with `row.get(..., 0) or 0` semantics, lowercase
the status string, then run the seven checks in source order. -/
def campRowChecks (avgCpa : PyF) (hasConvVal : Bool) (name : Cell)
    (statusCell : Option Cell)
    (costR convR imprR budgetR ctrR cpaR lostBR lostRR convValR : Option PyF) :
    List Finding :=
  let cost := getOr0 costR
  let conv := getOr0 convR
  let impr := getOr0 imprR
  let budget := getOr0 budgetR
  let ctr := getOr0 ctrR
  let cpa := getOr0 cpaR
  let lostB := getOr0 lostBR
  let lostR := getOr0 lostRR
  let convVal := getOr0 convValR
  let status := match statusCell with
    | some c => toLowerS (pyStrCell c)
    | none => ""
  checkBudgetCap name lostB ++ checkRankIS name lostR ++
  checkHighCpa name avgCpa cpa cost ++ checkRoas name hasConvVal conv convVal cost ++
  checkLowCtr name ctr impr ++ checkDelivery name status impr ++
  checkUnderPacing name budget cost

/-- The metrics dict of the campaign analyzer. -/
structure CampaignOutput where
  total_cost : PyF
  total_conversions : PyF
  account_avg_cpa : PyF
  account_avg_ctr : PyF
  account_roas : PyF
  findings : List Finding
deriving DecidableEq

/-- Function `campaign_performance.analyze` on a loaded table: resolve columns,
clean them, compute the account benchmarks, run the row checks, and round
the metrics.  The `summary` sentence is presentation only and omitted. -/
def campaignAnalyze (t : Table) : AnalyzeResult CampaignOutput :=
  match find_col t ["Campaign", "Campaign name"] with
  | none => AnalyzeResult.error "Could not find Campaign column in campaigns.csv"
  | some nameCol =>
    let costCol := find_col t ["Cost", "Spend"]
    let convCol := find_col t ["Conversions", "Conv."]
    let convValCol := find_col t ["Conversion value", "Conv. value", "All conv. value"]
    let ctrCol := find_col t ["CTR"]
    let imprCol := find_col t ["Impressions", "Impr."]
    let budgetCol := find_col t ["Budget", "Daily budget"]
    let lostBCol := find_col t ["Search lost IS (budget)", "Search Lost IS (budget)"]
    let lostRCol := find_col t ["Search lost IS (rank)", "Search Lost IS (rank)"]
    let statusCol := find_col t ["Campaign status", "Status"]
    let costConvCol := find_col t ["Cost / conv.", "Cost/conv.", "CPA"]
    let costOf := chanNum t costCol clean_currency
    let convOf := chanNum t convCol clean_number
    let convValOf := chanNum t convValCol clean_currency
    let ctrOf := chanNum t ctrCol clean_percentage
    let imprOf := chanNum t imprCol clean_number
    let budgetOf := chanNum t budgetCol clean_currency
    let lostBOf := chanNum t lostBCol clean_percentage
    let lostROf := chanNum t lostRCol clean_percentage
    let cpaOf := chanNum t costConvCol clean_currency
    let totalCost := nansum (t.rows.map (fun r => Option.join (costOf r)))
    let totalConv := nansum (t.rows.map (fun r => Option.join (convOf r)))
    let totalConvVal := nansum (t.rows.map (fun r => Option.join (convValOf r)))
    let avgCpa := safe_divide (some totalCost) (some totalConv) 0
    let avgCtr : PyF := match ctrCol with
      | some _ => nanmean (t.rows.map (fun r => Option.join (ctrOf r)))
      | none => some 0
    let accountRoas := safe_divide (some totalConvVal) (some totalCost) 0
    let findings := listBind t.rows (fun r =>
      campRowChecks avgCpa convValCol.isSome (cellAt t nameCol r) (chanCell t statusCol r)
        (costOf r) (convOf r) (imprOf r) (budgetOf r) (ctrOf r) (cpaOf r)
        (lostBOf r) (lostROf r) (convValOf r))
    AnalyzeResult.ok
      { total_cost := pyRoundF (some totalCost) 2
        total_conversions := pyRoundF (some totalConv) 1
        account_avg_cpa := pyRoundF avgCpa 2
        account_avg_ctr := pyRoundF avgCtr 4
        account_roas := pyRoundF accountRoas 2
        findings := findings }

/-- The findings of a campaign result (empty for the error dict). -/
def campFindings (r : AnalyzeResult CampaignOutput) : List Finding :=
  match r with
  | AnalyzeResult.ok o => o.findings
  | AnalyzeResult.error _ => []

/-! ### Budget pacing analyzer (src/tools/budget_pacing.py) -/

/-- One row of the pacing table.  The source formats `utilization_pct` as
a percent string (or `N/A` when there is no budget); the numeric value (or
`none` for `N/A`) is kept instead. -/
structure PacingRowInfo where
  campaign : Cell
  daily_avg_spend : PyF
  daily_budget : PyF
  utilization : Option PyF
  projected_monthly : PyF
deriving DecidableEq

/-- Output of the pacing analyzer. -/
structure PacingOutput where
  findings : List Finding
  pacing_table : List PacingRowInfo
  total_spend : PyF
  total_daily_budget : PyF
  projected_monthly_spend : PyF
  report_days : ℚ
deriving DecidableEq

/-- The body of the pacing row loop (budget_pacing.py lines 36-95):
`none` models the `continue` for zero-cost non-enabled rows; otherwise the
pacing-table entry and the findings of this row are produced.  The Python
constant `30.4` is the exact decimal `152 / 5`. -/
def pacingRowStep (reportDays : ℚ) (name : Cell) (statusCell btypeCell : Option Cell)
    (costR budgetR lostBR : Option PyF) : Option (PacingRowInfo × List Finding) :=
  let cost := getOr0 costR
  let budget := getOr0 budgetR
  let lostB := getOr0 lostBR
  let status := match statusCell with
    | some c => toLowerS (pyStrCell c)
    | none => ""
  let btype := match btypeCell with
    | some c => toLowerS (pyStrCell c)
    | none => ""
  if pyEqC cost 0 && !(status == "enabled") then none
  else
    let dailyAvg := safe_divide cost (some reportDays) 0
    let util : Option PyF :=
      if pyGtC budget 0 then some (safe_divide dailyAvg budget 0) else none
    let projected := pyMul dailyAvg (some (qn 152 5))
    let info : PacingRowInfo :=
      { campaign := name
        daily_avg_spend := pyRoundF dailyAvg 2
        daily_budget := pyRoundF budget 2
        utilization := util
        projected_monthly := pyRoundF projected 2 }
    let capOrHot : List Finding :=
      if pyTruthy lostB && pyGtC lostB (qn 3 20) then
        [{ severity := Severity.HIGH, area := "Budget Cap", entity := name }]
      else if (match util with
               | some u => pyGtC u (qn 19 20)
               | none => false) && pyGtC budget 0 then
        [{ severity := Severity.MEDIUM, area := "Budget Utilization", entity := name }]
      else []
    let under : List Finding :=
      if (match util with
          | some u => pyLtC u (qn 1 5)
          | none => false) && pyGtC cost 10 then
        [{ severity := Severity.LOW, area := "Budget Pacing", entity := name }]
      else []
    let shared : List Finding :=
      if hasSubS "shared" btype then
        [{ severity := Severity.LOW, area := "Shared Budget", entity := name }]
      else []
    some (info, capOrHot ++ under ++ shared)

/-- Function `budget_pacing.analyze` on a loaded table and a report length. -/
def budgetPacingAnalyze (t : Table) (reportDays : ℚ) : AnalyzeResult PacingOutput :=
  match find_col t ["Campaign", "Campaign name"] with
  | none => AnalyzeResult.error "Could not find Campaign column in campaigns.csv"
  | some nameCol =>
    let costCol := find_col t ["Cost", "Spend"]
    let budgetCol := find_col t ["Budget", "Daily budget"]
    let lostBCol := find_col t ["Search lost IS (budget)", "Search Lost IS (budget)"]
    let statusCol := find_col t ["Campaign status", "Status"]
    let btypeCol := find_col t ["Budget type", "Budget Type"]
    let costOf := chanNum t costCol clean_currency
    let budgetOf := chanNum t budgetCol clean_currency
    let lostBOf := chanNum t lostBCol clean_percentage
    let totalCost := nansum (t.rows.map (fun r => Option.join (costOf r)))
    let totalBudget := nansum (t.rows.map (fun r => Option.join (budgetOf r)))
    let projectedMonthly : ℚ :=
      if 0 < reportDays then qmul (qdiv totalCost reportDays) (qn 152 5) else 0
    let steps := t.rows.filterMap (fun r =>
      pacingRowStep reportDays (cellAt t nameCol r) (chanCell t statusCol r)
        (chanCell t btypeCol r) (costOf r) (budgetOf r) (lostBOf r))
    AnalyzeResult.ok
      { findings := listBind steps (fun s => s.2)
        pacing_table := steps.map (fun s => s.1)
        total_spend := pyRoundF (some totalCost) 2
        total_daily_budget := pyRoundF (some totalBudget) 2
        projected_monthly_spend := pyRoundF (some projectedMonthly) 2
        report_days := reportDays }

/-- The findings of a pacing result (empty for the error dict). -/
def pacingFindings (r : AnalyzeResult PacingOutput) : List Finding :=
  match r with
  | AnalyzeResult.ok o => o.findings
  | AnalyzeResult.error _ => []

/-! ### Keyword analyzer (src/tools/keyword_analysis.py) -/

/-- One keyword row with its resolved raw cells and cleaned numeric
channels (outer `Option` is column presence). -/
structure KwRow where
  name : Cell
  campaign : Option Cell
  adgroup : Option Cell
  matchType : Option Cell
  adRel : Option Cell
  lp : Option Cell
  status : Option Cell
  cost : Option PyF
  conv : Option PyF
  ctr : Option PyF
  impr : Option PyF
  qs : Option PyF
  maxCpc : Option PyF
  fpCpc : Option PyF
deriving DecidableEq

/-- Column resolution and per-row cleaning of the keyword analyzer
(keyword_analysis.py lines 14-56). -/
def kwRows (t : Table) : List KwRow :=
  let nameCol := find_col t ["Keyword", "Keyword text"]
  let campaignCol := find_col t ["Campaign"]
  let adgroupCol := find_col t ["Ad group"]
  let matchCol := find_col t ["Match type"]
  let qsCol := find_col t ["Quality Score", "Qual. score"]
  let adRelCol := find_col t ["Ad relevance"]
  let lpCol := find_col t ["Landing page exp.", "Landing page experience"]
  let costCol := find_col t ["Cost", "Spend"]
  let convCol := find_col t ["Conversions", "Conv."]
  let ctrCol := find_col t ["CTR"]
  let imprCol := find_col t ["Impressions", "Impr."]
  let maxCpcCol := find_col t ["Max CPC", "Max. CPC"]
  let fpCpcCol := find_col t ["First page CPC est.", "First page CPC"]
  let statusCol := find_col t ["Status", "Keyword status"]
  t.rows.map (fun r =>
    { name := match nameCol with
        | some c => cellAt t c r
        | none => Cell.missing
      campaign := chanCell t campaignCol r
      adgroup := chanCell t adgroupCol r
      matchType := chanCell t matchCol r
      adRel := chanCell t adRelCol r
      lp := chanCell t lpCol r
      status := chanCell t statusCol r
      cost := chanNum t costCol clean_currency r
      conv := chanNum t convCol clean_number r
      ctr := chanNum t ctrCol clean_percentage r
      impr := chanNum t imprCol clean_number r
      qs := chanNum t qsCol clean_number r
      maxCpc := chanNum t maxCpcCol clean_currency r
      fpCpc := chanNum t fpCpcCol clean_currency r })

/-- Sum `df[_cost].sum() if _cost in df else 0`: when the column is absent
every channel is `none` and the NaN-skipping sum is 0, as in the source. -/
def kwTotalCost (t : Table) : ℚ :=
  nansum ((kwRows t).map (fun r => Option.join r.cost))

def kwTotalConv (t : Table) : ℚ :=
  nansum ((kwRows t).map (fun r => Option.join r.conv))

/-- Account average CPA benchmark of the keyword analyzer. -/
def kwAvgCpa (t : Table) : PyF :=
  safe_divide (some (kwTotalCost t)) (some (kwTotalConv t)) 0

def kwAvgCtr (t : Table) : PyF :=
  match find_col t ["CTR"] with
  | some _ => nanmean ((kwRows t).map (fun r => Option.join r.ctr))
  | none => some 0

/-- Threshold `waste_threshold = max(avg_cpa * 2, 30) if avg_cpa > 0 else 50`
(NaN compares false, giving the 50 branch). -/
def kwWasteThr (t : Table) : ℚ :=
  match kwAvgCpa t with
  | some a => if 0 < a then qmax (qmul a 2) 30 else 50
  | none => 50

/-- Quality-score findings: rows with `_qs <= 3` (NaN false) and cost
above 20 give a HIGH Quality Score finding. -/
def kwQsFindings (hasQs : Bool) (rows : List KwRow) : List Finding :=
  if hasQs then
    listBind (rows.filter (fun r =>
        match r.qs with
        | some v => pyLeC v 3
        | none => false))
      (fun r =>
        if pyGtC (getOr0 r.cost) 20 then
          [{ severity := Severity.HIGH, area := "Quality Score", entity := r.name }]
        else [])
  else []

/-- Ad-relevance findings: rows whose ad-relevance text contains `below`
(case-insensitive, NaN false) and cost above 10 give a MEDIUM finding. -/
def kwAdRelFindings (hasAdRel : Bool) (rows : List KwRow) : List Finding :=
  if hasAdRel then
    listBind (rows.filter (fun r =>
        match r.adRel with
        | some c => hasSubS "below" (toLowerS (pyStrCell c))
        | none => false))
      (fun r =>
        if pyGtC (getOr0 r.cost) 10 then
          [{ severity := Severity.MEDIUM, area := "Ad Relevance", entity := r.name }]
        else [])
  else []

/-- Landing-page findings, same shape as `kwAdRelFindings`. -/
def kwLpFindings (hasLp : Bool) (rows : List KwRow) : List Finding :=
  if hasLp then
    listBind (rows.filter (fun r =>
        match r.lp with
        | some c => hasSubS "below" (toLowerS (pyStrCell c))
        | none => false))
      (fun r =>
        if pyGtC (getOr0 r.cost) 10 then
          [{ severity := Severity.MEDIUM, area := "Landing Page Experience", entity := r.name }]
        else [])
  else []

/-- Match-type findings (keyword_analysis.py lines 122-152): among rows not
removed or paused, count the non-missing match-type cells and those whose
text contains `broad` or `exact`; more than 60 percent broad gives a MEDIUM
finding, and zero exact matches gives another. -/
def kwMatchFindings (hasMatch hasStatus : Bool) (rows : List KwRow) : List Finding :=
  if hasMatch then
    let active := if hasStatus then
        rows.filter (fun r =>
          !(let s := toLowerS (pyStrCell (r.status.getD Cell.missing))
            hasSubS "removed" s || hasSubS "paused" s))
      else rows
    let cells := active.filterMap (fun r =>
      match r.matchType with
      | some c => if c == Cell.missing then none else some c
      | none => none)
    let totalKws := cells.length
    let broadCnt := (cells.filter (fun c => hasSubS "broad" (toLowerS (pyStrCell c)))).length
    let exactCnt := (cells.filter (fun c => hasSubS "exact" (toLowerS (pyStrCell c)))).length
    (if decide (0 < totalKws) && decide (qn 3 5 < qdiv ((broadCnt : ℚ)) ((totalKws : ℚ))) then
      [{ severity := Severity.MEDIUM, area := "Match Type Balance", entity := Cell.text "All keywords" }]
    else []) ++
    (if decide (exactCnt = 0) then
      [{ severity := Severity.MEDIUM, area := "Match Type Balance", entity := Cell.text "All keywords" }]
    else [])
  else []

/-- Wasted-spend findings (keyword_analysis.py lines 154-169): rows with
`_cost > waste_threshold` (NaN false) and `_conv.fillna(0) == 0` give a
HIGH Wasted Spend finding. -/
def kwWastedFindings (hasCost hasConv : Bool) (thr : ℚ) (rows : List KwRow) : List Finding :=
  if hasCost && hasConv then
    ((rows.filter (fun r =>
        (match r.cost with
         | some v => pyGtC v thr
         | none => false) &&
        (match r.conv with
         | some v => decide (v.getD 0 = 0)
         | none => false))).map
      (fun r => { severity := Severity.HIGH, area := "Wasted Spend", entity := r.name }))
  else []

/-- Distinct elements in first-occurrence order. -/
def uniqStr (seen : List String) : List String → List String
  | [] => []
  | k :: rest =>
      if seen.contains k then uniqStr seen rest
      else k :: uniqStr (k :: seen) rest

/-- Distinct cells in first-occurrence order. -/
def uniqCells (seen : List Cell) : List Cell → List Cell
  | [] => []
  | k :: rest =>
      if seen.contains k then uniqCells seen rest
      else k :: uniqCells (k :: seen) rest

/-- Duplicate-keyword findings (keyword_analysis.py lines 171-183): group
rows by the normalized keyword text and flag keywords appearing in more
than one distinct ad group (`nunique` skips missing cells).  pandas
iterates groups in sorted key order; first-occurrence order is used here,
which permutes but never adds or removes findings. -/
def kwDupFindings (hasCampaign hasAdgroup : Bool) (rows : List KwRow) : List Finding :=
  if hasCampaign && hasAdgroup then
    let normOf := fun (r : KwRow) => stripS (toLowerS (pyStrCell r.name))
    listBind (uniqStr [] (rows.map normOf)) (fun k =>
      let grp := rows.filter (fun r => normOf r == k)
      let ags := grp.filterMap (fun r =>
        match r.adgroup with
        | some c => if c == Cell.missing then none else some c
        | none => none)
      if decide (1 < (uniqCells [] ags).length) then
        [{ severity := Severity.LOW, area := "Duplicate Keywords", entity := Cell.text k }]
      else [])
  else []

/-- Bid-gap findings (keyword_analysis.py lines 185-199): rows where both
estimates are present and the first-page estimate exceeds 1.5 times the
max CPC give a LOW Bid Gap finding. -/
def kwBidGapFindings (hasMax hasFp : Bool) (rows : List KwRow) : List Finding :=
  if hasMax && hasFp then
    ((rows.filter (fun r =>
        (Option.join r.fpCpc).isSome && (Option.join r.maxCpc).isSome &&
        pyGt (Option.join r.fpCpc) (pyMul (Option.join r.maxCpc) (some (qn 3 2))))).map
      (fun r => { severity := Severity.LOW, area := "Bid Gap", entity := r.name }))
  else []

/-- Output of the keyword analyzer (metrics dict; the quality-score and
match-type breakdown tables are presentation only and omitted). -/
structure KwOutput where
  findings : List Finding
  total_keywords : Nat
  total_cost : PyF
  total_conversions : PyF
  avg_cpa : PyF
  avg_ctr : PyF
deriving DecidableEq

/-- Function `keyword_analysis.analyze` on a loaded table: the seven finding
sections run in source order, each inert when its columns are absent. -/
def keywordAnalyze (t : Table) : AnalyzeResult KwOutput :=
  match find_col t ["Keyword", "Keyword text"] with
  | none => AnalyzeResult.error "Could not find Keyword column in keywords.csv"
  | some _ =>
    let rows := kwRows t
    let findings :=
      kwQsFindings (find_col t ["Quality Score", "Qual. score"]).isSome rows ++
      kwAdRelFindings (find_col t ["Ad relevance"]).isSome rows ++
      kwLpFindings (find_col t ["Landing page exp.", "Landing page experience"]).isSome rows ++
      kwMatchFindings (find_col t ["Match type"]).isSome
        (find_col t ["Status", "Keyword status"]).isSome rows ++
      kwWastedFindings (find_col t ["Cost", "Spend"]).isSome
        (find_col t ["Conversions", "Conv."]).isSome (kwWasteThr t) rows ++
      kwDupFindings (find_col t ["Campaign"]).isSome (find_col t ["Ad group"]).isSome rows ++
      kwBidGapFindings (find_col t ["Max CPC", "Max. CPC"]).isSome
        (find_col t ["First page CPC est.", "First page CPC"]).isSome rows
    AnalyzeResult.ok
      { findings := findings
        total_keywords := t.rows.length
        total_cost := pyRoundF (some (kwTotalCost t)) 2
        total_conversions := pyRoundF (some (kwTotalConv t)) 1
        avg_cpa := pyRoundF (kwAvgCpa t) 2
        avg_ctr := pyRoundF (kwAvgCtr t) 4 }

/-- The findings of a keyword result (empty for the error dict). -/
def kwFindings (r : AnalyzeResult KwOutput) : List Finding :=
  match r with
  | AnalyzeResult.ok o => o.findings
  | AnalyzeResult.error _ => []

/-! ### Tool invocation wrapper (src/agent/tool_executor.py) -/

/-- The twelve analyzer tools of `TOOL_MAP`. -/
inductive ToolId where
  | campaignPerformance | budgetPacing | keywords | searchTerms | adCreatives
  | adGroupStructure | biddingStrategies | audiences | devices
  | timePerformance | extensionsTool | geoPerformance
deriving DecidableEq

/-- Map `TOOL_MAP`: tool name to analyzer, in source order. -/
def TOOL_MAP : List (String × ToolId) :=
  [("analyze_campaign_performance", ToolId.campaignPerformance),
   ("analyze_budget_pacing", ToolId.budgetPacing),
   ("analyze_keywords", ToolId.keywords),
   ("analyze_search_terms", ToolId.searchTerms),
   ("analyze_ad_creatives", ToolId.adCreatives),
   ("analyze_ad_group_structure", ToolId.adGroupStructure),
   ("analyze_bidding_strategies", ToolId.biddingStrategies),
   ("analyze_audiences", ToolId.audiences),
   ("analyze_devices", ToolId.devices),
   ("analyze_time_performance", ToolId.timePerformance),
   ("analyze_extensions", ToolId.extensionsTool),
   ("analyze_geographic_performance", ToolId.geoPerformance)]

/-- Lookup `TOOL_MAP.get(tool_name)`. -/
def lookupTool (name : String) : Option ToolId :=
  (TOOL_MAP.find? (fun p => p.1 == name)).map (fun p => p.2)

/-- A JSON value, the parsed form of the string `execute` returns. -/
inductive JVal where
  | jstr : String → JVal
  | jbool : Bool → JVal
  | jnum : ℚ → JVal
  | jarr : List JVal → JVal
  | jobj : List (String × JVal) → JVal

/-- The observable behaviour of one analyzer call `func(**tool_input)`:
it returns a serializable value, raises `FileNotFoundError`, or raises
some other exception (both carrying the exception message `str(e)`). -/
inductive RunOutcome where
  | finished : JVal → RunOutcome
  | raisesFileNotFound : String → RunOutcome
  | raisesOther : String → RunOutcome

/-- Function `tool_executor.execute` (lines 43-65).  The source interpolates the
messages into f-strings that wrap the tool name in single quotes; the
quote characters are dropped here.  The returned JSON document is kept as
a `JVal`; the source serializes it with `json.dumps`, which cannot fail on
these finite dictionaries. -/
def execute (α : Type) (run : ToolId → α → RunOutcome) (name : String) (input : α) : JVal :=
  match lookupTool name with
  | none => JVal.jobj [("error", JVal.jstr ("Unknown tool: " ++ name))]
  | some tid =>
    match run tid input with
    | RunOutcome.finished v => v
    | RunOutcome.raisesFileNotFound m =>
        JVal.jobj [("error", JVal.jstr ("CSV file not found: " ++ m ++ ". This analysis will be skipped.")),
                   ("skipped", JVal.jbool true)]
    | RunOutcome.raisesOther m =>
        JVal.jobj [("error", JVal.jstr ("Tool " ++ name ++ " failed: " ++ m ++ ". Skipping this analysis.")),
                   ("skipped", JVal.jbool true)]

/-! ### Concrete scenario tables used by the claims -/

/-- The end-to-end campaign scenario of the specification: one row with
cost 500 dollars, budget 10 dollars per day, zero conversions, zero
impressions, status Enabled. -/
def campaignScenario : Table :=
  { cols := ["Campaign", "Campaign status", "Cost", "Budget", "Conversions", "Impressions"]
    rows := [[Cell.text "Brand", Cell.text "Enabled", Cell.text "$500.00",
              Cell.text "$10.00", Cell.text "0", Cell.text "0"]] }

/-- A campaign table with one enabled-free row whose click-through rate is
exactly zero on 2000 impressions (the status column is absent, so the
delivery check cannot fire and the CTR check is isolated). -/
def ctrZeroScenario : Table :=
  { cols := ["Campaign", "CTR", "Impressions"]
    rows := [[Cell.text "Search", Cell.text "0%", Cell.text "2000"]] }

/-- The wasted-spend scenario: total cost 500 over 25 conversions gives an
account average CPA of 20; the first keyword spends 100 without
converting, the second 25 without converting. -/
def kwScenario : Table :=
  { cols := ["Keyword", "Cost", "Conversions"]
    rows := [[Cell.text "kw a", Cell.text "$100.00", Cell.text "0"],
             [Cell.text "kw b", Cell.text "$25.00", Cell.text "0"],
             [Cell.text "kw c", Cell.text "$375.00", Cell.text "25"]] }

/-- A table whose first column header is exactly `Search term`. -/
def searchTermScenario : Table :=
  { cols := ["Search term", "Clicks", "Cost"]
    rows := [[Cell.text "shoes", Cell.text "3", Cell.text "$1.00"]] }

/-- A table with an ambiguous first column but keyword-signature columns
`Quality Score` and `Ad relevance`. -/
def kwSignatureScenario : Table :=
  { cols := ["Foo", "Quality Score", "Ad relevance"]
    rows := [[Cell.text "x", Cell.text "7", Cell.text "Average"]] }

/-! ## Theorems -/

/-! ### Bridges from the reducible arithmetic to the field operations of ℚ -/

theorem qn_eq (n : ℤ) (d : ℕ) : qn n d = (n : ℚ) / (d : ℚ) := by
  rw [qn, Rat.mkRat_eq_div]

theorem qadd_eq (a b : ℚ) : qadd a b = a + b := by
  rw [qadd, Rat.add_def, mkRat, dif_neg (Nat.mul_ne_zero a.den_nz b.den_nz)]

theorem qmul_eq (a b : ℚ) : qmul a b = a * b := by
  rw [qmul, Rat.mul_def, mkRat, dif_neg (Nat.mul_ne_zero a.den_nz b.den_nz)]

theorem qsub_eq (a b : ℚ) : qsub a b = a - b := by
  rw [qsub, Rat.sub_def, mkRat, dif_neg (Nat.mul_ne_zero a.den_nz b.den_nz)]

theorem qdiv_eq (a b : ℚ) : qdiv a b = a / b := by
  rw [qdiv, Rat.divInt_eq_div]
  rcases eq_or_ne b 0 with hb | hb
  · subst hb; simp
  · have hbn : (b.num : ℚ) ≠ 0 := by
      simpa using Rat.num_ne_zero.mpr hb
    have had : (a.den : ℚ) ≠ 0 := by
      exact_mod_cast (Nat.cast_ne_zero).mpr a.den_nz
    have hbd : (b.den : ℚ) ≠ 0 := by
      exact_mod_cast (Nat.cast_ne_zero).mpr b.den_nz
    push_cast
    rw [div_eq_div_iff (mul_ne_zero hbn had) hb]
    have ha := Rat.num_div_den a
    have hbq := Rat.num_div_den b
    rw [div_eq_iff had] at ha
    rw [div_eq_iff hbd] at hbq
    rw [ha, hbq]
    ring

theorem qpow10_eq (n : ℕ) : qpow10 n = (10 : ℚ) ^ n := by
  rw [qpow10]; push_cast; ring

theorem qmax_eq (a b : ℚ) : qmax a b = max a b := by
  rw [qmax, max_def]

/-! ### Claim C5 — clean_percentage on already-numeric input -/

/-- Claim C5: `clean_percentage` applied to an already-numeric input
divides by 100 exactly when the value is strictly greater than 1 and
passes values at most 1 through unchanged; in particular a numeric 0.5
stays 0.5, a numeric 50 becomes 0.5, and the boundary value 1.0 is not
divided. -/
theorem c5_clean_percentage_numeric_boundary :
    (∀ q : ℚ, clean_percentage (Cell.num q) = some (if 1 < q then q / 100 else q))
    ∧ clean_percentage (Cell.num (0.5 : ℚ)) = some (0.5 : ℚ)
    ∧ clean_percentage (Cell.num 50) = some (0.5 : ℚ)
    ∧ clean_percentage (Cell.num 1) = some 1 := by
  have h : ∀ q : ℚ, clean_percentage (Cell.num q) = some (if 1 < q then q / 100 else q) := by
    intro q
    simp only [clean_percentage, qdiv_eq]
  refine ⟨h, ?_, ?_, ?_⟩
  · rw [h]; norm_num
  · rw [h]; norm_num
  · rw [h]; norm_num

/-! ### Claim C6 — the cleaners are total and meet the anchor values -/

/-- Claim C6: the three value cleaners always return either a number or
the missing sentinel (they are total functions of the cell value), and
they satisfy the anchor values of the specification. -/
theorem c6_cleaners_total_anchors :
    (∀ v : Cell, clean_percentage v = none ∨ ∃ q, clean_percentage v = some q)
    ∧ (∀ v : Cell, clean_currency v = none ∨ ∃ q, clean_currency v = some q)
    ∧ (∀ v : Cell, clean_number v = none ∨ ∃ q, clean_number v = some q)
    ∧ clean_currency (Cell.text "$1,234.56") = some (1234.56 : ℚ)
    ∧ clean_currency (Cell.text "--") = none
    ∧ clean_percentage (Cell.text "23.4%") = some (0.234 : ℚ)
    ∧ clean_percentage (Cell.text "< 10%") = some (0.10 : ℚ)
    ∧ clean_number (Cell.text "1,234") = some (1234 : ℚ) := by
  refine ⟨?_, ?_, ?_, ?_, ?_, ?_, ?_, ?_⟩
  · intro v
    cases h : clean_percentage v with
    | none => exact Or.inl rfl
    | some q => exact Or.inr ⟨q, rfl⟩
  · intro v
    cases h : clean_currency v with
    | none => exact Or.inl rfl
    | some q => exact Or.inr ⟨q, rfl⟩
  · intro v
    cases h : clean_number v with
    | none => exact Or.inl rfl
    | some q => exact Or.inr ⟨q, rfl⟩
  · have h : clean_currency (Cell.text "$1,234.56") = some (qn 30864 25) := by decide
    rw [h, qn_eq]; norm_num
  · decide
  · have h : clean_percentage (Cell.text "23.4%") = some (qn 117 500) := by decide
    rw [h, qn_eq]; norm_num
  · have h : clean_percentage (Cell.text "< 10%") = some (qn 1 10) := by decide
    rw [h, qn_eq]; norm_num
  · have h : clean_number (Cell.text "1,234") = some (qn 1234 1) := by decide
    rw [h, qn_eq]; norm_num

/-! ### Claim C10 — safe_divide on zero and missing denominators -/

/-- Claim C10: `safe_divide` returns the default not only when the
denominator is exactly zero but also when it is missing (NaN), treating
both identically, and on any nonzero numeric denominator it divides; it
is a total function of its numeric inputs. -/
theorem c10_safe_divide_missing_denominator :
    (∀ (n : PyF) (default : ℚ), safe_divide n none default = some default)
    ∧ (∀ (n : PyF) (default : ℚ), safe_divide n (some 0) default = some default)
    ∧ (∀ (n : PyF) (default : ℚ),
        safe_divide n none default = safe_divide n (some 0) default)
    ∧ (∀ (n d : ℚ) (default : ℚ), d ≠ 0 →
        safe_divide (some n) (some d) default = some (n / d)) := by
  refine ⟨fun n default => rfl, fun n default => rfl, fun n default => rfl, ?_⟩
  intro n d default hd
  simp [safe_divide, if_neg hd, qdiv_eq]

/-- Witness for C10 at a concrete nonzero denominator. -/
theorem c10_safe_divide_missing_denominator_witness :
    ((2 : ℚ) ≠ 0) ∧ safe_divide (some 1) (some 2) 0 = some ((1 : ℚ) / 2) :=
  ⟨by norm_num, c10_safe_divide_missing_denominator.2.2.2 1 2 0 (by norm_num)⟩

/-! ### Claim C1 — load_csv error behaviour on missing files -/

/-- Claim C1 counterexample: for a path that does not exist on disk, the
encoding loop of `load_csv` catches the `FileNotFoundError` of every
`open` attempt (its handler is `except Exception`), leaves `lines` unset,
and raises the `ValueError` used for unreadable files — not the `NotFound`
error the claim requires. -/
theorem c1_missing_file_counterexample :
    readFileLines "data/campaigns.csv" none =
      Except.error (LoadError.valueError "Could not read file: data/campaigns.csv")
    ∧ isFileNotFound (readFileLines "data/campaigns.csv" none) = false := by
  constructor
  · rfl
  · rfl

/-- Claim C1 amended: `load_csv` never fails with `NotFound` from its read
phase; it raises the single `ValueError("Could not read file: <path>")`
exactly when no encoding attempt succeeds, which covers both a nonexistent
path (every `open` raises and is swallowed) and an existing file that no
candidate encoding can decode. -/
theorem c1_read_failure_amended (path : String) (file : DiskFile) :
    isFileNotFound (readFileLines path file) = false
    ∧ (readFileLines path file =
        Except.error (LoadError.valueError ("Could not read file: " ++ path))
        ↔ ∀ e ∈ encodings, tryReadLines file e = none)
    ∧ (file = none →
        readFileLines path file =
          Except.error (LoadError.valueError ("Could not read file: " ++ path))) := by
  have hnone : (encodings.findSome? (fun e => (tryReadLines file e).map (fun ls => (ls, e)))) = none
      ↔ ∀ e ∈ encodings, tryReadLines file e = none := by
    rw [List.findSome?_eq_none_iff]
    constructor
    · intro h e he
      have := h e he
      cases hv : tryReadLines file e with
      | none => rfl
      | some ls => rw [hv] at this; simp at this
    · intro h e he
      rw [h e he]; rfl
  refine ⟨?_, ?_, ?_⟩
  · rw [readFileLines]
    cases h : encodings.findSome? (fun e => (tryReadLines file e).map (fun ls => (ls, e))) with
    | none => rfl
    | some r => rfl
  · rw [readFileLines]
    cases h : encodings.findSome? (fun e => (tryReadLines file e).map (fun ls => (ls, e))) with
    | none =>
        simp only [true_iff]
        exact hnone.mp h
    | some r =>
        constructor
        · intro hc; cases hc
        · intro hall
          rw [hnone.mpr hall] at h
          cases h
  · intro hf
    subst hf
    rfl

/-- Witness for the amended C1: a present decodable file is not an error,
and the absent file produces the `ValueError`. -/
theorem c1_read_failure_amended_witness :
    isFileNotFound (readFileLines "a.csv" (some (fun _ => some ["x,y,z"]))) = false
    ∧ readFileLines "a.csv" none =
        Except.error (LoadError.valueError "Could not read file: a.csv") :=
  ⟨(c1_read_failure_amended "a.csv" (some (fun _ => some ["x,y,z"]))).1,
   (c1_read_failure_amended "a.csv" none).2.2 rfl⟩

/-! ### Claim C2 — the tool invocation wrapper -/

/-- Claim C2: `execute` is a total function (it returns a JSON document
and never raises): an unknown tool name yields the error object, a
`FileNotFoundError` from the analyzer yields the skip object carrying the
message, and any other exception yields the skip object carrying the
exception message. -/
theorem c2_execute_wrapper (α : Type) (run : ToolId → α → RunOutcome)
    (name : String) (input : α) :
    (lookupTool name = none →
      execute α run name input = JVal.jobj [("error", JVal.jstr ("Unknown tool: " ++ name))])
    ∧ (∀ tid v, lookupTool name = some tid → run tid input = RunOutcome.finished v →
        execute α run name input = v)
    ∧ (∀ tid m, lookupTool name = some tid →
        run tid input = RunOutcome.raisesFileNotFound m →
        execute α run name input = JVal.jobj
          [("error", JVal.jstr ("CSV file not found: " ++ m ++ ". This analysis will be skipped.")),
           ("skipped", JVal.jbool true)])
    ∧ (∀ tid m, lookupTool name = some tid →
        run tid input = RunOutcome.raisesOther m →
        execute α run name input = JVal.jobj
          [("error", JVal.jstr ("Tool " ++ name ++ " failed: " ++ m ++ ". Skipping this analysis.")),
           ("skipped", JVal.jbool true)]) := by
  refine ⟨?_, ?_, ?_, ?_⟩
  · intro h; simp only [execute, h]
  · intro tid v h hr; simp only [execute, h, hr]
  · intro tid m h hr; simp only [execute, h, hr]
  · intro tid m h hr; simp only [execute, h, hr]

/-- Witness for C2: a concrete failing analyzer is converted to the skip
object, a missing file to the file-not-found skip object, and an unknown
name to the error object. -/
theorem c2_execute_wrapper_witness :
    execute Unit (fun _ _ => RunOutcome.raisesOther "boom") "analyze_keywords" () =
      JVal.jobj [("error", JVal.jstr "Tool analyze_keywords failed: boom. Skipping this analysis."),
                 ("skipped", JVal.jbool true)]
    ∧ execute Unit (fun _ _ => RunOutcome.raisesFileNotFound "missing.csv")
        "analyze_budget_pacing" () =
      JVal.jobj [("error", JVal.jstr "CSV file not found: missing.csv. This analysis will be skipped."),
                 ("skipped", JVal.jbool true)]
    ∧ execute Unit (fun _ _ => RunOutcome.raisesOther "boom") "frobnicate" () =
      JVal.jobj [("error", JVal.jstr "Unknown tool: frobnicate")] :=
  ⟨(c2_execute_wrapper Unit (fun _ _ => RunOutcome.raisesOther "boom")
      "analyze_keywords" ()).2.2.2 ToolId.keywords "boom" rfl rfl,
   (c2_execute_wrapper Unit (fun _ _ => RunOutcome.raisesFileNotFound "missing.csv")
      "analyze_budget_pacing" ()).2.2.1 ToolId.budgetPacing "missing.csv" rfl rfl,
   (c2_execute_wrapper Unit (fun _ _ => RunOutcome.raisesOther "boom")
      "frobnicate" ()).1 rfl⟩

/-! ### Claim C9 — the loader cleanup invariant -/

/-- The head of a `dropWhile` never satisfies the dropped predicate. -/
theorem head?_dropWhile_not (p : Char → Bool) :
    ∀ (l : List Char) (c : Char), (l.dropWhile p).head? = some c → p c = false := by
  intro l
  induction l with
  | nil => intro c h; cases h
  | cons a l ih =>
      intro c h
      rw [List.dropWhile_cons] at h
      by_cases hp : p a
      · rw [if_pos hp] at h
        exact ih c h
      · rw [if_neg hp] at h
        cases h
        exact Bool.not_eq_true _ ▸ (by simpa using hp)

/-- A nonempty `dropWhile` keeps the last element of the list. -/
theorem getLast?_dropWhile (p : Char → Bool) (l : List Char)
    (h : l.dropWhile p ≠ []) : (l.dropWhile p).getLast? = l.getLast? := by
  obtain ⟨t, ht⟩ := List.dropWhile_suffix (l := l) p
  calc (l.dropWhile p).getLast?
      = (t ++ l.dropWhile p).getLast? := (List.getLast?_append_of_ne_nil t h).symm
    _ = l.getLast? := by rw [ht]

/-- The first character of a stripped string is not whitespace. -/
theorem stripList_head_not_ws (l : List Char) (c : Char)
    (h : (stripList l).head? = some c) : isWsChar c = false := by
  rw [stripList] at h
  rw [List.head?_reverse] at h
  have hne : (l.dropWhile isWsChar).reverse.dropWhile isWsChar ≠ [] := by
    intro he
    rw [he] at h
    cases h
  rw [getLast?_dropWhile _ _ hne, List.getLast?_reverse] at h
  exact head?_dropWhile_not isWsChar l c h

/-- The last character of a stripped string is not whitespace. -/
theorem stripList_getLast_not_ws (l : List Char) (c : Char)
    (h : (stripList l).getLast? = some c) : isWsChar c = false := by
  rw [stripList, List.getLast?_reverse] at h
  exact head?_dropWhile_not isWsChar _ c h

/-- Claim C9: every table produced by the loader cleanup phase has no
fully-blank rows, no row whose first cell (as a lowercased string) starts
with `total`, and every column name trimmed of leading and trailing
whitespace. -/
theorem c9_loader_invariant (cols : List String) (rows : List (List Cell)) :
    (∀ r ∈ (cleanupTable cols rows).rows, allMissingRow r = false)
    ∧ (∀ r ∈ (cleanupTable cols rows).rows, totalRow r = false)
    ∧ ((cleanupTable cols rows).cols = cols.map stripS)
    ∧ (∀ s ∈ (cleanupTable cols rows).cols,
        (∀ c, s.data.head? = some c → isWsChar c = false)
        ∧ (∀ c, s.data.getLast? = some c → isWsChar c = false)) := by
  refine ⟨?_, ?_, rfl, ?_⟩
  · intro r hr
    have h1 : r ∈ rows.filter (fun r => !allMissingRow r) :=
      List.mem_of_mem_filter hr
    have := List.of_mem_filter h1
    simpa using this
  · intro r hr
    have := List.of_mem_filter hr
    simpa using this
  · intro s hs
    simp only [cleanupTable] at hs
    obtain ⟨c0, _, rfl⟩ := List.mem_map.mp hs
    constructor
    · intro c hc
      exact stripList_head_not_ws c0.data c hc
    · intro c hc
      exact stripList_getLast_not_ws c0.data c hc

/-- Witness for C9 on a concrete parsed table: the surviving row is
neither blank nor a Total row, and the trimmed first column name starts
with a non-whitespace character. -/
theorem c9_loader_invariant_witness :
    allMissingRow [Cell.text "Brand", Cell.text "$1.00"] = false
    ∧ totalRow [Cell.text "Brand", Cell.text "$1.00"] = false
    ∧ isWsChar 'C' = false :=
  ⟨(c9_loader_invariant ["  Campaign  ", "Cost"]
      [[Cell.text "Brand", Cell.text "$1.00"],
       [Cell.missing, Cell.missing],
       [Cell.text "Total: Account", Cell.missing]]).1
    [Cell.text "Brand", Cell.text "$1.00"] (by decide),
   (c9_loader_invariant ["  Campaign  ", "Cost"]
      [[Cell.text "Brand", Cell.text "$1.00"],
       [Cell.missing, Cell.missing],
       [Cell.text "Total: Account", Cell.missing]]).2.1
    [Cell.text "Brand", Cell.text "$1.00"] (by decide),
   ((c9_loader_invariant ["  Campaign  ", "Cost"]
      [[Cell.text "Brand", Cell.text "$1.00"],
       [Cell.missing, Cell.missing],
       [Cell.text "Total: Account", Cell.missing]]).2.2.2 "Campaign"
    (by decide)).1 'C' (by decide)⟩

/-! ### Claim C7 — the two-stage file-type classifier -/

/-- The running maximum of the scoring fold is one of the candidates. -/
theorem foldl_max_mem :
    ∀ (xs : List (ReportType × Nat)) (x : ReportType × Nat),
      xs.foldl (fun best y => if best.2 < y.2 then y else best) x ∈ x :: xs := by
  intro xs
  induction xs with
  | nil => intro x; simp
  | cons y ys ih =>
      intro x
      simp only [List.foldl_cons]
      by_cases hxy : x.2 < y.2
      · rw [if_pos hxy]
        rcases List.mem_cons.mp (ih y) with h | h
        · rw [h]
          exact List.mem_cons_of_mem _ (List.mem_cons_self _ _)
        · exact List.mem_cons_of_mem _ (List.mem_cons_of_mem _ h)
      · rw [if_neg hxy]
        rcases List.mem_cons.mp (ih x) with h | h
        · rw [h]
          exact List.mem_cons_self _ _
        · exact List.mem_cons_of_mem _ (List.mem_cons_of_mem _ h)

/-- The running maximum of the scoring fold bounds every candidate. -/
theorem foldl_max_ge :
    ∀ (xs : List (ReportType × Nat)) (x : ReportType × Nat),
      ∀ p ∈ x :: xs, p.2 ≤ (xs.foldl (fun best y => if best.2 < y.2 then y else best) x).2 := by
  intro xs
  induction xs with
  | nil =>
      intro x p hp
      rw [List.mem_singleton] at hp
      rw [hp]
      simp
  | cons y ys ih =>
      intro x p hp
      simp only [List.foldl_cons]
      have hx : x.2 ≤ (if x.2 < y.2 then y else x).2 := by
        by_cases hxy : x.2 < y.2
        · rw [if_pos hxy]; exact Nat.le_of_lt hxy
        · rw [if_neg hxy]
      have hy : y.2 ≤ (if x.2 < y.2 then y else x).2 := by
        by_cases hxy : x.2 < y.2
        · rw [if_pos hxy]
        · rw [if_neg hxy]; exact Nat.le_of_not_lt hxy
      have hhead := ih (if x.2 < y.2 then y else x) (if x.2 < y.2 then y else x)
        (List.mem_cons_self _ _)
      rcases List.mem_cons.mp hp with h | h
      · rw [h]; exact Nat.le_trans hx hhead
      · rcases List.mem_cons.mp h with h2 | h2
        · rw [h2]; exact Nat.le_trans hy hhead
        · exact ih _ p (List.mem_cons_of_mem _ h2)

/-- Function `maxByFirst` returns a member of the list. -/
theorem maxByFirst_mem (l : List (ReportType × Nat)) (b : ReportType × Nat)
    (h : maxByFirst l = some b) : b ∈ l := by
  cases l with
  | nil => cases h
  | cons x xs =>
      rw [maxByFirst] at h
      have := foldl_max_mem xs x
      rw [Option.some_inj.mp h] at this
      exact this

/-- Function `maxByFirst` returns a value bounding every member. -/
theorem maxByFirst_ge (l : List (ReportType × Nat)) (b : ReportType × Nat)
    (h : maxByFirst l = some b) : ∀ p ∈ l, p.2 ≤ b.2 := by
  cases l with
  | nil => cases h
  | cons x xs =>
      intro p hp
      rw [maxByFirst] at h
      have := foldl_max_ge xs x p hp
      rw [Option.some_inj.mp h] at this
      exact this

/-- Claim C7: stage 1 of the classifier matches the case-folded, trimmed
first column header against the ordered fragment list and returns the
first hit immediately, so a table whose first header folds to
`search term` is classified as search terms whatever its other columns;
when stage 1 finds nothing, the returned type carries a signature score
that is at least the acceptance threshold 5 and maximal among all types;
on the concrete signature scenario the keywords type wins with score 18. -/
theorem c7_classifier_two_stage :
    (∀ t : Table, t.rows ≠ [] → 2 ≤ t.cols.length →
      (colsLowerOf t).headD "" = "search term" →
      classifyTable t = some ReportType.search_terms)
    ∧ (∀ (t : Table) (tk : ReportType), t.rows ≠ [] → 2 ≤ t.cols.length →
        stage1Result t = none → classifyTable t = some tk →
        ∃ sc, (tk, sc) ∈ scoresOf t ∧ 5 ≤ sc ∧ ∀ p ∈ scoresOf t, p.2 ≤ sc)
    ∧ classifyTable searchTermScenario = some ReportType.search_terms
    ∧ classifyTable kwSignatureScenario = some ReportType.keywords
    ∧ (ReportType.keywords, 18) ∈ scoresOf kwSignatureScenario := by
  have hguard : ∀ t : Table, t.rows ≠ [] → 2 ≤ t.cols.length →
      (t.rows.isEmpty || decide (t.cols.length < 2)) = false := by
    intro t h1 h2
    have e1 : t.rows.isEmpty = false := by
      simpa [List.isEmpty_iff] using h1
    have e2 : decide (t.cols.length < 2) = false :=
      decide_eq_false (Nat.not_lt.mpr h2)
    rw [e1, e2]
    rfl
  refine ⟨?_, ?_, by decide, by decide, by decide⟩
  · intro t h1 h2 h3
    have hs : stage1Result t = some ("search term", ReportType.search_terms) := by
      simp only [stage1Result, h3]
      rfl
    rw [classifyTable, hguard t h1 h2]
    simp only [Bool.false_eq_true, if_false, hs]
  · intro t tk h1 h2 hs1 hc
    rw [classifyTable, hguard t h1 h2] at hc
    simp only [Bool.false_eq_true, if_false, hs1] at hc
    have hne : (scoresOf t).isEmpty = false := rfl
    rw [hne] at hc
    simp only [Bool.false_eq_true, if_false] at hc
    split at hc
    next best hm =>
      split at hc
      next h5 =>
        have hbtk : best.1 = tk := Option.some_inj.mp hc
        refine ⟨best.2, ?_, h5, maxByFirst_ge _ _ hm⟩
        rw [← hbtk]
        simpa using maxByFirst_mem _ _ hm
      next h5 => cases hc
    next hm => cases hc

/-- Witness for C7: the two stage theorems applied to the concrete
scenario tables. -/
theorem c7_classifier_two_stage_witness :
    classifyTable searchTermScenario = some ReportType.search_terms
    ∧ (∃ sc, (ReportType.keywords, sc) ∈ scoresOf kwSignatureScenario ∧ 5 ≤ sc
        ∧ ∀ p ∈ scoresOf kwSignatureScenario, p.2 ≤ sc) :=
  ⟨c7_classifier_two_stage.1 searchTermScenario (by decide) (by decide) (by decide),
   c7_classifier_two_stage.2.1 kwSignatureScenario ReportType.keywords
     (by decide) (by decide) (by decide) (by decide)⟩

/-! ### Claim C3 — the end-to-end campaign scenario -/

/-- Claim C3 counterexample: on the one-row scenario table (cost 500,
budget 10 per day, zero conversions, zero impressions, status Enabled) the
zero-impressions Delivery finding is emitted with severity MEDIUM, and no
HIGH Delivery finding exists in either the campaign analysis or the pacing
analysis, contradicting the claimed HIGH severity. -/
theorem c3_delivery_severity_counterexample :
    campFindings (campaignAnalyze campaignScenario) =
      [{ severity := Severity.MEDIUM, area := "Delivery", entity := Cell.text "Brand" }]
    ∧ (campFindings (campaignAnalyze campaignScenario)).filter
        (fun f => f.severity == Severity.HIGH && f.area == "Delivery") = []
    ∧ (pacingFindings (budgetPacingAnalyze campaignScenario 30)).filter
        (fun f => f.severity == Severity.HIGH && f.area == "Delivery") = [] := by
  refine ⟨by decide, by decide, by decide⟩

/-- Claim C3 amended: the scenario yields exactly one campaign finding, a
MEDIUM Delivery finding; `account_avg_cpa` is 0 (safe division by zero
conversions); the pacing analyzer emits a MEDIUM Budget Utilization
finding from its above-95-percent branch, the utilization being 5/3 (the
daily average spend of 500/30 exceeds the 10 dollar budget), and no
under-pacing (near-zero-utilization) finding is emitted by either
analyzer. -/
theorem c3_scenario_amended :
    campaignAnalyze campaignScenario = AnalyzeResult.ok
      { total_cost := some 500
        total_conversions := some 0
        account_avg_cpa := some 0
        account_avg_ctr := some 0
        account_roas := some 0
        findings := [{ severity := Severity.MEDIUM, area := "Delivery", entity := Cell.text "Brand" }] }
    ∧ budgetPacingAnalyze campaignScenario 30 = AnalyzeResult.ok
      { findings := [{ severity := Severity.MEDIUM, area := "Budget Utilization", entity := Cell.text "Brand" }]
        pacing_table := [{ campaign := Cell.text "Brand"
                           daily_avg_spend := some (qn 1667 100)
                           daily_budget := some 10
                           utilization := some (some (qn 5 3))
                           projected_monthly := some (qn 50667 100) }]
        total_spend := some 500
        total_daily_budget := some 10
        projected_monthly_spend := some (qn 50667 100)
        report_days := 30 }
    ∧ (pacingFindings (budgetPacingAnalyze campaignScenario 30)).filter
        (fun f => f.severity == Severity.LOW) = []
    ∧ (campFindings (campaignAnalyze campaignScenario)).filter
        (fun f => f.area == "Budget Utilization") = []
    ∧ qn 19 20 < qn 5 3
    ∧ qn 5 3 = (5 : ℚ) / 3 := by
  refine ⟨by decide, by decide, by decide, by decide, by decide, ?_⟩
  rw [qn_eq]
  norm_num

/-! ### Claim C8 — the low-CTR campaign check -/

/-- Membership in a conditional singleton list. -/
theorem mem_ite_singleton {c : Bool} {a b : Finding} :
    (a ∈ (if c then [b] else [])) ↔ (c = true ∧ a = b) := by
  cases c <;> simp

/-- Claim C8 counterexample: a campaign row whose click-through rate is
exactly 0 (cleaned from `0%`) with 2000 impressions satisfies the claimed
precondition (CTR below 0.5 percent, impressions above 1000) yet the
analysis emits no finding at all: the truthiness guard `if ctr and ...`
drops the zero CTR. -/
theorem c8_zero_ctr_counterexample :
    clean_percentage (Cell.text "0%") = some 0
    ∧ clean_number (Cell.text "2000") = some 2000
    ∧ (0 : ℚ) < qn 1 200
    ∧ (1000 : ℚ) < 2000
    ∧ campaignAnalyze ctrZeroScenario = AnalyzeResult.ok
      { total_cost := some 0
        total_conversions := some 0
        account_avg_cpa := some 0
        account_avg_ctr := some 0
        account_roas := some 0
        findings := [] } := by
  refine ⟨by decide, by decide, by decide, by decide, by decide⟩

/-- Membership in a conditional list. -/
theorem mem_ite_list {c : Bool} {a : Finding} {l : List Finding} :
    (a ∈ (if c then l else [])) ↔ (c = true ∧ a ∈ l) := by
  cases c <;> simp

/-- Claim C8 amended: the campaign row loop emits the MEDIUM CTR finding
exactly when the cleaned click-through rate is present and nonzero and
below 0.5 percent and the impressions exceed 1000; in particular a row
whose click-through rate is exactly 0 is never flagged (the source guard
is `if ctr and ctr < 0.005 and impr > 1000`). -/
theorem c8_low_ctr_amended (avgCpa : PyF) (hasConvVal : Bool) (name : Cell)
    (statusCell : Option Cell)
    (costR convR imprR budgetR ctrR cpaR lostBR lostRR convValR : Option PyF) :
    (({ severity := Severity.MEDIUM, area := "CTR", entity := name } : Finding) ∈
        campRowChecks avgCpa hasConvVal name statusCell costR convR imprR budgetR ctrR cpaR
          lostBR lostRR convValR
      ↔ ((∃ q, getOr0 ctrR = some q ∧ q ≠ 0 ∧ q < qn 1 200)
         ∧ (∃ i, getOr0 imprR = some i ∧ 1000 < i)))
    ∧ (getOr0 ctrR = some 0 →
        ({ severity := Severity.MEDIUM, area := "CTR", entity := name } : Finding) ∉
          campRowChecks avgCpa hasConvVal name statusCell costR convR imprR budgetR ctrR cpaR
            lostBR lostRR convValR)
    ∧ qn 1 200 = (0.5 : ℚ) / 100 := by
  have hiff : ({ severity := Severity.MEDIUM, area := "CTR", entity := name } : Finding) ∈
        campRowChecks avgCpa hasConvVal name statusCell costR convR imprR budgetR ctrR cpaR
          lostBR lostRR convValR
      ↔ ((∃ q, getOr0 ctrR = some q ∧ q ≠ 0 ∧ q < qn 1 200)
         ∧ (∃ i, getOr0 imprR = some i ∧ 1000 < i)) := by
    simp only [campRowChecks, checkBudgetCap, checkRankIS, checkHighCpa, checkRoas,
      checkLowCtr, checkDelivery, checkUnderPacing, List.mem_append, mem_ite_singleton,
      mem_ite_list, List.mem_singleton, Finding.mk.injEq,
      show (Severity.MEDIUM = Severity.HIGH) ↔ False from by decide,
      show (Severity.MEDIUM = Severity.LOW) ↔ False from by decide,
      show (("CTR" : String) = "Budget") ↔ False from by decide,
      show (("CTR" : String) = "Impression Share (Rank)") ↔ False from by decide,
      show (("CTR" : String) = "CPA") ↔ False from by decide,
      show (("CTR" : String) = "ROAS") ↔ False from by decide,
      show (("CTR" : String) = "Delivery") ↔ False from by decide,
      show (("CTR" : String) = "Budget Utilization") ↔ False from by decide]
    rcases hq : getOr0 ctrR with _ | q <;> rcases hi : getOr0 imprR with _ | i <;>
      simp [pyTruthy, pyLtC, pyGtC]
  refine ⟨hiff, ?_, ?_⟩
  · intro h0 hmem
    obtain ⟨⟨q, hq, hne, _⟩, _⟩ := hiff.mp hmem
    rw [h0] at hq
    exact hne (Option.some_inj.mp hq).symm
  · rw [qn_eq]
    norm_num

/-- Witness for the amended C8: a row with a 0.4 percent CTR on 2000
impressions is flagged, through the iff of the theorem. -/
theorem c8_low_ctr_amended_witness :
    ({ severity := Severity.MEDIUM, area := "CTR", entity := Cell.text "Camp" } : Finding) ∈
      campRowChecks (some 0) false (Cell.text "Camp") none none none (some (some 2000)) none
        (some (some (qn 1 250))) none none none none :=
  (c8_low_ctr_amended (some 0) false (Cell.text "Camp") none none none (some (some 2000)) none
      (some (some (qn 1 250))) none none none none).1.mpr
    ⟨⟨qn 1 250, rfl, by decide, by decide⟩, ⟨2000, rfl, by decide⟩⟩

/-! ### Claim C4 — the wasted-spend threshold of the keyword analyzer -/

theorem kwQs_area (hasQs : Bool) (rows : List KwRow) :
    ∀ f ∈ kwQsFindings hasQs rows, f.area = "Quality Score" := by
  intro f hf
  rw [kwQsFindings] at hf
  split at hf
  · rw [listBind, List.mem_flatten] at hf
    obtain ⟨sub, hsub, hfsub⟩ := hf
    rw [List.mem_map] at hsub
    obtain ⟨r, hr, hsub⟩ := hsub
    subst hsub
    split at hfsub
    · rw [List.mem_singleton] at hfsub
      subst hfsub
      rfl
    · cases hfsub
  · cases hf

theorem kwAdRel_area (hasAdRel : Bool) (rows : List KwRow) :
    ∀ f ∈ kwAdRelFindings hasAdRel rows, f.area = "Ad Relevance" := by
  intro f hf
  rw [kwAdRelFindings] at hf
  split at hf
  · rw [listBind, List.mem_flatten] at hf
    obtain ⟨sub, hsub, hfsub⟩ := hf
    rw [List.mem_map] at hsub
    obtain ⟨r, hr, hsub⟩ := hsub
    subst hsub
    split at hfsub
    · rw [List.mem_singleton] at hfsub
      subst hfsub
      rfl
    · cases hfsub
  · cases hf

theorem kwLp_area (hasLp : Bool) (rows : List KwRow) :
    ∀ f ∈ kwLpFindings hasLp rows, f.area = "Landing Page Experience" := by
  intro f hf
  rw [kwLpFindings] at hf
  split at hf
  · rw [listBind, List.mem_flatten] at hf
    obtain ⟨sub, hsub, hfsub⟩ := hf
    rw [List.mem_map] at hsub
    obtain ⟨r, hr, hsub⟩ := hsub
    subst hsub
    split at hfsub
    · rw [List.mem_singleton] at hfsub
      subst hfsub
      rfl
    · cases hfsub
  · cases hf

theorem kwMatch_area (hasMatch hasStatus : Bool) (rows : List KwRow) :
    ∀ f ∈ kwMatchFindings hasMatch hasStatus rows, f.area = "Match Type Balance" := by
  intro f hf
  rw [kwMatchFindings] at hf
  split at hf
  · simp only [List.mem_append, mem_ite_singleton] at hf
    rcases hf with ⟨_, hf⟩ | ⟨_, hf⟩ <;> (subst hf; rfl)
  · cases hf

theorem kwDup_area (hasCampaign hasAdgroup : Bool) (rows : List KwRow) :
    ∀ f ∈ kwDupFindings hasCampaign hasAdgroup rows, f.area = "Duplicate Keywords" := by
  intro f hf
  rw [kwDupFindings] at hf
  split at hf
  · rw [listBind, List.mem_flatten] at hf
    obtain ⟨sub, hsub, hfsub⟩ := hf
    rw [List.mem_map] at hsub
    obtain ⟨k, hk, hsub⟩ := hsub
    subst hsub
    simp only [mem_ite_singleton] at hfsub
    obtain ⟨_, hfsub⟩ := hfsub
    subst hfsub
    rfl
  · cases hf

theorem kwBidGap_area (hasMax hasFp : Bool) (rows : List KwRow) :
    ∀ f ∈ kwBidGapFindings hasMax hasFp rows, f.area = "Bid Gap" := by
  intro f hf
  rw [kwBidGapFindings] at hf
  split at hf
  · rw [List.mem_map] at hf
    obtain ⟨r, hr, hf⟩ := hf
    subst hf
    rfl
  · cases hf

/-- A filter by one area annihilates a section carrying a different area. -/
theorem filter_other_area {area : String} (l : List Finding)
    (h : ∀ f ∈ l, f.area = area) (ws : String) (hne : area ≠ ws) :
    l.filter (fun f => f.area == ws) = [] := by
  rw [List.filter_eq_nil_iff]
  intro f hf
  rw [h f hf]
  simpa using hne

/-- Claim C4: whenever the keyword table has its keyword, cost and
conversion columns and the account average CPA is a positive number `a`,
the HIGH Wasted Spend findings are exactly one finding per row whose cost
exceeds `max (2 * a) 30` and whose conversions (missing read as zero)
equal zero; on the concrete scenario with average CPA 20, the keyword
spending 100 with no conversions is flagged HIGH and the keyword spending
25 is not. -/
theorem c4_wasted_spend_threshold :
    (∀ (t : Table) (a : ℚ),
      (find_col t ["Keyword", "Keyword text"]).isSome = true →
      (find_col t ["Cost", "Spend"]).isSome = true →
      (find_col t ["Conversions", "Conv."]).isSome = true →
      kwAvgCpa t = some a → 0 < a →
      (kwFindings (keywordAnalyze t)).filter (fun f => f.area == "Wasted Spend") =
        ((kwRows t).filter (fun r =>
            (match r.cost with
             | some v => pyGtC v (max (a * 2) 30)
             | none => false) &&
            (match r.conv with
             | some v => decide (v.getD 0 = 0)
             | none => false))).map
          (fun r => { severity := Severity.HIGH, area := "Wasted Spend", entity := r.name }))
    ∧ keywordAnalyze kwScenario = AnalyzeResult.ok
        { findings := [{ severity := Severity.HIGH, area := "Wasted Spend", entity := Cell.text "kw a" }]
          total_keywords := 3
          total_cost := some 500
          total_conversions := some 25
          avg_cpa := some 20
          avg_ctr := some 0 }
    ∧ clean_currency (Cell.text "$100.00") = some 100
    ∧ clean_currency (Cell.text "$25.00") = some 25
    ∧ kwAvgCpa kwScenario = some 20
    ∧ qmax (qmul 20 2) 30 = 40
    ∧ (40 : ℚ) < 100
    ∧ ¬((40 : ℚ) < 25) := by
  refine ⟨?_, by decide, by decide, by decide, by decide, by decide, by decide, by decide⟩
  intro t a hname hcost hconv havg ha
  obtain ⟨nc, hnc⟩ := Option.isSome_iff_exists.mp hname
  obtain ⟨cc, hcc⟩ := Option.isSome_iff_exists.mp hcost
  obtain ⟨vc, hvc⟩ := Option.isSome_iff_exists.mp hconv
  have hthr : kwWasteThr t = max (a * 2) 30 := by
    simp only [kwWasteThr, havg]
    rw [if_pos ha, qmax_eq, qmul_eq]
  simp only [keywordAnalyze, hnc, kwFindings]
  rw [List.filter_append, List.filter_append, List.filter_append, List.filter_append,
    List.filter_append, List.filter_append]
  rw [filter_other_area _ (kwQs_area _ _) _ (by decide),
    filter_other_area _ (kwAdRel_area _ _) _ (by decide),
    filter_other_area _ (kwLp_area _ _) _ (by decide),
    filter_other_area _ (kwMatch_area _ _ _) _ (by decide),
    filter_other_area _ (kwDup_area _ _ _) _ (by decide),
    filter_other_area _ (kwBidGap_area _ _ _) _ (by decide)]
  simp only [List.nil_append, List.append_nil]
  simp only [kwWastedFindings, hcc, hvc, Option.isSome_some, Bool.and_self, if_true]
  rw [hthr]
  rw [List.filter_eq_self.mpr]
  intro f hf
  rw [List.mem_map] at hf
  obtain ⟨r, hr, hf⟩ := hf
  subst hf
  rfl

/-- Witness for C4: the general wasted-spend characterization applied to
the concrete scenario table with account average CPA 20. -/
theorem c4_wasted_spend_threshold_witness :
    (kwFindings (keywordAnalyze kwScenario)).filter (fun f => f.area == "Wasted Spend") =
      ((kwRows kwScenario).filter (fun r =>
          (match r.cost with
           | some v => pyGtC v (max ((20 : ℚ) * 2) 30)
           | none => false) &&
          (match r.conv with
           | some v => decide (v.getD 0 = 0)
           | none => false))).map
        (fun r => { severity := Severity.HIGH, area := "Wasted Spend", entity := r.name }) :=
  c4_wasted_spend_threshold.1 kwScenario 20 (by decide) (by decide) (by decide)
    (by decide) (by decide)
